import Mathlib

/-!
Shallow embedding of the Theia timeline aggregation core
(`packages/timeline/src/browser/timeline-service.ts`): the data model
(`TimelineItem`, `Timeline`, options), the provider registry and request
router (`TimelineService`), and the aggregate store
(`TimelineTreeWidget.loadTimelineForSource` with `TimelineAggregate`).

JavaScript `Map`s are modelled as association lists preserving insertion
order (`Map.set` on an existing key updates in place, `Map.delete`
removes). Promise outcomes are modelled as an explicit `FetchOutcome`
datatype. The subscription `Disposable`s handed back by
`provider.onDidChange(...)` are modelled as tokens drawn from a counter,
together with a log of the tokens on which `dispose()` has been invoked,
so that claims about subscription release can be stated.
-/

/-- Embedding of `TimelineItem` from the source. `timestamp` is a JS number holding
milliseconds since the epoch; the claims only concern its ordering, so it
is modelled as `Int`. The optional display fields are carried as
`Option`s. A `source` property is not declared on the class but is
attached to items by `TimelineService.getTimeline`'s spread
`{ ...item, source: provider.id }`; it is modelled as an `Option String`
that is `none` unless set. -/
structure TimelineItem where
  handle : String
  timestamp : Int
  label : String
  id : Option String := none
  description : Option String := none
  detail : Option String := none
  contextValue : Option String := none
  source : Option String := none
deriving DecidableEq, Repr

/-- The `paging` record of a `Timeline`: `{ readonly cursor: string | undefined }`. -/
structure TimelinePaging where
  cursor : Option String
deriving DecidableEq, Repr

/-- Embedding of `Timeline` from the source: one provider response page. -/
structure Timeline where
  source : String
  paging : Option TimelinePaging := none
  items : List TimelineItem
deriving DecidableEq, Repr

/-- Embedding of `TimelineOptions.limit`: either a page-size count or a
`{ timestamp, id }` watermark. -/
inductive TimelineLimit where
  | count (n : Nat)
  | watermark (timestamp : Int) (id : Option String)
deriving DecidableEq, Repr

/-- Embedding of `TimelineOptions` from the source. -/
structure TimelineOptions where
  cursor : Option String := none
  limit : Option TimelineLimit := none
deriving DecidableEq, Repr

/-- A URI, reduced to the parts the code inspects: its scheme, plus an
opaque remainder. -/
structure URI where
  scheme : String
  rest : String := ""
deriving DecidableEq, Repr

/-- Embedding of `TimelineProvider.scheme : string | string[]` from the source. -/
inductive ProviderScheme where
  | single (s : String)
  | multiple (ss : List String)
deriving DecidableEq, Repr

/-- The settled outcome of the promise returned by a provider's
`provideTimeline`: a rejection carrying an error value, or a resolution
with `undefined` ("no result") or a `Timeline` page. -/
inductive FetchOutcome where
  | rejected (e : String)
  | resolved (t : Option Timeline)
deriving DecidableEq, Repr

/-- Embedding of `TimelineProvider` from the source. `provide` models
`provideTimeline(uri, options, token)` by giving the settled outcome of
the returned promise (the cancellation token is advisory and never
inspected by the service, so it is not modelled). `hasOnDidChange`
records whether the optional `onDidChange` event is present;
`disposeThrows` records whether the provider's own `dispose()` throws
when invoked. -/
structure TimelineProvider where
  id : String
  label : String
  scheme : ProviderScheme
  hasOnDidChange : Bool := false
  disposeThrows : Bool := false
  provide : URI → TimelineOptions → FetchOutcome

/-- Model of `Map.get`: the value stored at `k`, if any. -/
def mapGet {α : Type} (m : List (String × α)) (k : String) : Option α :=
  match m with
  | [] => none
  | (k', v) :: rest => if k' = k then some v else mapGet rest k

/-- Model of `Map.set`: update in place when the key exists (JS `Map.set` keeps the
original insertion position), append otherwise. -/
def mapSet {α : Type} (m : List (String × α)) (k : String) (v : α) : List (String × α) :=
  match m with
  | [] => [(k, v)]
  | (k', v') :: rest => if k' = k then (k, v) :: rest else (k', v') :: mapSet rest k v

/-- Model of `Map.delete`: remove the entry at `k`, if any. -/
def mapDelete {α : Type} (m : List (String × α)) (k : String) : List (String × α) :=
  m.filter (fun e => e.1 != k)

/-- A `TimelineProvidersChangeEvent`: `{ added?: string[]; removed?: string[] }`. -/
structure ProvidersChangeEvent where
  added : Option (List String) := none
  removed : Option (List String) := none
deriving DecidableEq, Repr

/-- The mutable state of `TimelineService`, together with the bookkeeping
needed to observe it: `providers` and `providerSubscriptions` are the two
maps of the class (a subscription is the token of the `Disposable`
returned by `provider.onDidChange(...)`); `nextSubscriptionToken` is the
allocator for fresh subscription tokens; `disposedSubscriptions` logs
every token on which `dispose()` has been called (the source never calls
it, so no operation below ever extends this log); `providersEvents` logs
the events fired on `onDidChangeProvidersEmitter`, in order;
`providerDisposeCalls` logs each id for which an existing provider's own
`dispose()` was invoked during re-registration. -/
structure TimelineServiceState where
  providers : List (String × TimelineProvider) := []
  providerSubscriptions : List (String × Nat) := []
  nextSubscriptionToken : Nat := 0
  disposedSubscriptions : List Nat := []
  providersEvents : List ProvidersChangeEvent := []
  providerDisposeCalls : List String := []

/-- Embedding of `TimelineService.registerTimelineProvider`, line by line: if a
provider already exists under the id, call its `dispose()` inside
`try { ... } catch { }` (the call is logged; whether it throws has no
effect on anything that follows, which models the swallowing); store the
new provider; if it exposes `onDidChange`, subscribe and store the fresh
subscription token under the id — overwriting any previous token without
disposing it; finally fire one `{ added: [id] }` event. -/
def registerTimelineProvider (s : TimelineServiceState) (p : TimelineProvider) :
    TimelineServiceState :=
  let id := p.id
  let s1 :=
    match mapGet s.providers id with
    | some _ => { s with providerDisposeCalls := s.providerDisposeCalls ++ [id] }
    | none => s
  let s2 := { s1 with providers := mapSet s1.providers id p }
  let s3 :=
    if p.hasOnDidChange then
      { s2 with
        providerSubscriptions := mapSet s2.providerSubscriptions id s2.nextSubscriptionToken,
        nextSubscriptionToken := s2.nextSubscriptionToken + 1 }
    else s2
  { s3 with providersEvents := s3.providersEvents ++ [{ added := some [p.id] }] }

/-- The `dispose` closure of the handle returned by
`registerTimelineProvider`. It captures only the id: it deletes whatever
is in `providers` under that id and fires `{ removed: [id] }`,
unconditionally — it does not check that the current registration is the
one the handle was issued for, does not touch `providerSubscriptions`,
and fires the event even when the id is absent. -/
def registrationHandleDispose (s : TimelineServiceState) (id : String) :
    TimelineServiceState :=
  { s with
    providers := mapDelete s.providers id,
    providersEvents := s.providersEvents ++ [{ removed := some [id] }] }

/-- Embedding of `TimelineService.unregisterTimelineProvider`: no-op when the id is
unknown; otherwise delete the provider entry and the subscription map
entry (the subscription token is dropped from the map without `dispose()`
being called on it) and fire `{ removed: [id] }`. -/
def unregisterTimelineProvider (s : TimelineServiceState) (id : String) :
    TimelineServiceState :=
  match mapGet s.providers id with
  | none => s
  | some _ =>
    { s with
      providers := mapDelete s.providers id,
      providerSubscriptions := mapDelete s.providerSubscriptions id,
      providersEvents := s.providersEvents ++ [{ removed := some [id] }] }

/-- Whether a subscription token has been allocated and never disposed:
events subscribed through it are still delivered. -/
def subscriptionActive (s : TimelineServiceState) (tok : Nat) : Bool :=
  decide (tok < s.nextSubscriptionToken) && !(s.disposedSubscriptions.contains tok)

/-- Embedding of `TimelineSource`: the `{ id, label }` snapshot entries of `getSources`. -/
structure TimelineSource where
  id : String
  label : String
deriving DecidableEq, Repr

/-- Embedding of `TimelineService.getSources`: `[...providers.values()].map(p => ({id, label}))`. -/
def getSources (s : TimelineServiceState) : List TimelineSource :=
  s.providers.map (fun e => { id := e.2.id, label := e.2.label })

/-- The map in `getTimeline`'s `.then` handler:
`result.items.map(item => ({ ...item, source: provider.id }))`. -/
def stampSource (providerId : String) (items : List TimelineItem) : List TimelineItem :=
  items.map (fun item => { item with source := some providerId })

/-- The `.then` continuation attached by `getTimeline` to the provider's
promise: a rejection passes through unmodified (no rejection handler is
installed); `undefined` stays `undefined`; a `Timeline` has every item's
`source` overwritten with the provider id. -/
def routeResult (providerId : String) (o : FetchOutcome) : FetchOutcome :=
  match o with
  | .rejected e => .rejected e
  | .resolved none => .resolved none
  | .resolved (some result) =>
    .resolved (some { result with items := stampSource providerId result.items })

/-- Embedding of `TimelineRequest` from the source (without the advisory cancellation
token); `result` is the settled outcome of the routed promise. -/
structure TimelineRequest where
  result : FetchOutcome
  options : TimelineOptions
  source : String
  uri : URI
deriving DecidableEq, Repr

/-- Embedding of `TimelineService.getTimeline`: `undefined` when the id is not in
`providers`; when the provider's `scheme` is a string, `undefined` when
it is neither `'*'` nor the URI's scheme; otherwise — including for every
array-valued `scheme`, which the `typeof provider.scheme === 'string'`
test skips — a request whose `result` is the provider's outcome routed
through `routeResult`. -/
def getTimeline (s : TimelineServiceState) (id : String) (uri : URI)
    (options : TimelineOptions) : Option TimelineRequest :=
  match mapGet s.providers id with
  | none => none
  | some provider =>
    match provider.scheme with
    | .single sch =>
      if sch ≠ "*" ∧ sch ≠ uri.scheme then
        none
      else
        some { result := routeResult provider.id (provider.provide uri options),
               options := options, source := provider.id, uri := uri }
    | .multiple _ =>
      some { result := routeResult provider.id (provider.provide uri options),
             options := options, source := provider.id, uri := uri }

/-- The ordering used by `items.sort((a, b) => b.timestamp - a.timestamp)`:
`a` may precede `b` exactly when `b.timestamp ≤ a.timestamp` (descending). -/
def itemLe (a b : TimelineItem) : Prop := b.timestamp ≤ a.timestamp

instance : DecidableRel itemLe :=
  fun a b => inferInstanceAs (Decidable (b.timestamp ≤ a.timestamp))

instance : IsTotal TimelineItem itemLe :=
  ⟨fun a b => by unfold itemLe; omega⟩

instance : IsTrans TimelineItem itemLe :=
  ⟨fun a b c h1 h2 => by unfold itemLe at h1 h2 ⊢; omega⟩

/-- Model of `this.items.sort((a, b) => b.timestamp - a.timestamp)`:
`Array.prototype.sort` is a stable sort, and with this comparator it
orders by descending timestamp, preserving the relative order of items
with equal timestamps; a stable sort is modelled by `insertionSort`. -/
def sortByTimestampDesc (l : List TimelineItem) : List TimelineItem :=
  l.insertionSort itemLe

/-- Model of `timeline.paging?.cursor`: `undefined` when `paging` is absent,
otherwise the (possibly undefined) `cursor` inside it. -/
def pagingCursor (t : Timeline) : Option String :=
  match t.paging with
  | none => none
  | some p => p.cursor

/-- Embedding of `TimelineAggregate` from the source. -/
structure TimelineAggregate where
  source : String
  items : List TimelineItem
  cursor : Option String
deriving DecidableEq, Repr

/-- The `TimelineAggregate` constructor: takes the page's `source`,
`items` (as given — no sort) and `paging?.cursor`. -/
def TimelineAggregate.ofTimeline (t : Timeline) : TimelineAggregate :=
  { source := t.source, items := t.items, cursor := pagingCursor t }

/-- Embedding of `TimelineAggregate.add`: push the new items, then sort the whole
sequence by descending timestamp. -/
def TimelineAggregate.add (agg : TimelineAggregate) (items : List TimelineItem) :
    TimelineAggregate :=
  { agg with items := sortByTimestampDesc (agg.items ++ items) }

/-- Embedding of `TimelineTreeWidget.PAGE_SIZE`. -/
def pageSize : Nat := 20

/-- The state of `TimelineTreeWidget` relevant to the aggregate store:
its `timelinesBySource` map. -/
structure TreeWidgetState where
  timelinesBySource : List (String × TimelineAggregate) := []
deriving DecidableEq, Repr

/-- The observable outcome of one `loadTimelineForSource` call:
`getTimeline` returned `undefined` (not applicable); the awaited request
rejected (the rejection propagates out of the `async` method); the
provider resolved with `undefined` (no result); or
`model.renderTimeline(source, uri, items, !!cursor)` was reached, with
the item list and has-more flag it was handed. -/
inductive LoadOutcome where
  | notApplicable
  | rejectedWith (e : String)
  | noResult
  | rendered (items : List TimelineItem) (hasMore : Bool)
deriving DecidableEq, Repr

/-- The `reset` step of `loadTimelineForSource`:
`if (reset) { this.timelinesBySource.delete(source); }`. -/
def resetStep (w : TreeWidgetState) (source : String) (reset : Bool) : TreeWidgetState :=
  if reset then { timelinesBySource := mapDelete w.timelinesBySource source } else w

/-- The options built by `loadTimelineForSource` after the reset step:
`{ cursor: reset ? undefined : cursor, limit: TimelineTreeWidget.PAGE_SIZE }`,
where `cursor` is `timeline?.cursor` of the (possibly just deleted)
aggregate. -/
def requestOptions (w1 : TreeWidgetState) (source : String) (reset : Bool) :
    TimelineOptions :=
  { cursor := if reset then none
      else (mapGet w1.timelinesBySource source).bind (fun t => t.cursor),
    limit := some (.count pageSize) }

/-- Model of the JS double negation `!!timeline.cursor` applied to a
`string | undefined` cursor: `undefined` is falsy, and a string is
truthy iff it is non-empty — so `!!""` is `false` even though the
cursor is defined. -/
def cursorTruthy (c : Option String) : Bool :=
  match c with
  | none => false
  | some s => s != ""

/-- The tail of `loadTimelineForSource`'s success path:
`this.timelinesBySource.set(source, timeline)` followed by
`this.model.renderTimeline(source, uri, timeline.items, !!timeline.cursor)`,
the has-more argument being the JS truthiness of the cursor. -/
def storeAndRender (w1 : TreeWidgetState) (source : String)
    (timeline' : TimelineAggregate) : TreeWidgetState × LoadOutcome :=
  ({ timelinesBySource := mapSet w1.timelinesBySource source timeline' },
   .rendered timeline'.items (cursorTruthy timeline'.cursor))

/-- What `loadTimelineForSource` does with the awaited request result
(`timeline` being the aggregate looked up after the reset step): a
rejection propagates out of the `async` method untouched; a `undefined`
result does nothing; a `Timeline` result passes the `if (items)` test
(arrays are truthy, even when empty), so an existing aggregate gets
`timeline.add(items)` plus `timeline.cursor = timelineResult.paging?.cursor`,
and otherwise `new TimelineAggregate(timelineResult)` seeds one; the
aggregate is then stored and rendered. -/
def applyTimelineResult (w1 : TreeWidgetState) (source : String)
    (timeline : Option TimelineAggregate) (o : FetchOutcome) :
    TreeWidgetState × LoadOutcome :=
  match o with
  | .rejected e => (w1, .rejectedWith e)
  | .resolved none => (w1, .noResult)
  | .resolved (some timelineResult) =>
    match timeline with
    | some agg =>
      storeAndRender w1 source
        { agg.add timelineResult.items with cursor := pagingCursor timelineResult }
    | none => storeAndRender w1 source (TimelineAggregate.ofTimeline timelineResult)

/-- Embedding of `TimelineTreeWidget.loadTimelineForSource`: reset step, aggregate and
cursor lookup, options, `getTimeline` (no request means no further
effect), then the handling of the awaited result. -/
def loadTimelineForSource (svc : TimelineServiceState) (w : TreeWidgetState)
    (source : String) (uri : URI) (reset : Bool) : TreeWidgetState × LoadOutcome :=
  let w1 := resetStep w source reset
  let timeline := mapGet w1.timelinesBySource source
  let options := requestOptions w1 source reset
  match getTimeline svc source uri options with
  | none => (w1, .notApplicable)
  | some timelineRequest => applyTimelineResult w1 source timeline timelineRequest.result

/-- Embedding of `TimelineTreeWidget.loadTimeLine`: fan the request out, calling
`loadTimelineForSource` once per registered source (un-awaited in the
source; each call settles independently). The result pairs each source
with its call's outcome. -/
def loadTimeLine (svc : TimelineServiceState) (w : TreeWidgetState) (uri : URI)
    (reset : Bool) : TreeWidgetState × List (String × LoadOutcome) :=
  ((getSources svc).map (fun s => s.id)).foldl
    (fun acc source =>
      let step := loadTimelineForSource svc acc.1 source uri reset
      (step.1, acc.2 ++ [(source, step.2)]))
    (w, [])

/-- Whether the scheme test in `getTimeline` lets the request through:
string schemes must be the wildcard or match the URI; array schemes are
never tested. -/
def schemeApplicable (p : TimelineProvider) (uri : URI) : Bool :=
  match p.scheme with
  | .single sch => sch == "*" || sch == uri.scheme
  | .multiple _ => true

theorem mapGet_mapSet_self {α : Type} (m : List (String × α)) (k : String) (v : α) :
    mapGet (mapSet m k v) k = some v := by
  induction m with
  | nil => simp [mapGet, mapSet]
  | cons e rest ih =>
    by_cases h : e.1 = k
    · simp [mapSet, mapGet, h]
    · simp [mapSet, mapGet, h, ih]

theorem mapGet_mapDelete_self {α : Type} (m : List (String × α)) (k : String) :
    mapGet (mapDelete m k) k = none := by
  induction m with
  | nil => simp [mapGet, mapDelete]
  | cons e rest ih =>
    by_cases h : e.1 = k
    · simpa [mapDelete, h] using ih
    · simpa [mapDelete, mapGet, h] using ih

theorem mapGet_eq_some_mem {α : Type} {m : List (String × α)} {k : String} {v : α}
    (h : mapGet m k = some v) : (k, v) ∈ m := by
  induction m with
  | nil => simp [mapGet] at h
  | cons e rest ih =>
    by_cases he : e.1 = k
    · simp [mapGet, he] at h
      have hev : e = (k, v) := by
        obtain ⟨a, b⟩ := e
        simp only at he h
        rw [he, h]
      rw [← hev]
      exact List.mem_cons_self e rest
    · simp [mapGet, he] at h
      exact List.mem_cons_of_mem e (ih h)

theorem mem_mapSet {α : Type} {m : List (String × α)} {k : String} {v : α}
    {e : String × α} (h : e ∈ mapSet m k v) : e = (k, v) ∨ e ∈ m := by
  induction m with
  | nil => simpa [mapSet] using h
  | cons e' rest ih =>
    by_cases he : e'.1 = k
    · simp [mapSet, he] at h
      rcases h with h | h
      · exact Or.inl h
      · exact Or.inr (List.mem_cons_of_mem e' h)
    · simp [mapSet, he] at h
      rcases h with h | h
      · exact Or.inr (by simp [h])
      · rcases ih h with h' | h'
        · exact Or.inl h'
        · exact Or.inr (List.mem_cons_of_mem e' h')

theorem mem_mapDelete {α : Type} {m : List (String × α)} {k : String}
    {e : String × α} (h : e ∈ mapDelete m k) : e ∈ m :=
  List.mem_of_mem_filter h

theorem sorted_sortByTimestampDesc (l : List TimelineItem) :
    (sortByTimestampDesc l).Sorted itemLe :=
  List.sorted_insertionSort itemLe l

theorem sortByTimestampDesc_of_sorted {l : List TimelineItem}
    (h : l.Sorted itemLe) : sortByTimestampDesc l = l :=
  List.Sorted.insertionSort_eq h

theorem mem_sortByTimestampDesc {l : List TimelineItem} {a : TimelineItem} :
    a ∈ sortByTimestampDesc l ↔ a ∈ l :=
  (List.perm_insertionSort itemLe l).mem_iff

/-- When the id is registered and the scheme test passes, `getTimeline`
returns the request built from the provider's routed outcome. -/
theorem getTimeline_eq_of_applicable {s : TimelineServiceState} {id : String}
    {uri : URI} {p : TimelineProvider} (options : TimelineOptions)
    (hp : mapGet s.providers id = some p) (hs : schemeApplicable p uri = true) :
    getTimeline s id uri options =
      some { result := routeResult p.id (p.provide uri options),
             options := options, source := p.id, uri := uri } := by
  unfold getTimeline
  rw [hp]
  unfold schemeApplicable at hs
  cases hsch : p.scheme with
  | single sch =>
    rw [hsch] at hs
    simp only [Bool.or_eq_true, beq_iff_eq] at hs
    have hcond : ¬(sch ≠ "*" ∧ sch ≠ uri.scheme) := by
      rcases hs with hs | hs <;> simp [hs]
    simp [hsch, hcond]
  | multiple ss => simp [hsch]

/-- Inversion for a successful lookup: a request returned by `getTimeline`
is built from the registered provider, with the result routed (stamped)
through `routeResult` and `source` set to the provider's id. -/
theorem getTimeline_some_inv {s : TimelineServiceState} {id : String} {uri : URI}
    {options : TimelineOptions} {req : TimelineRequest}
    (h : getTimeline s id uri options = some req) :
    ∃ p, mapGet s.providers id = some p ∧
      req = { result := routeResult p.id (p.provide uri options),
              options := options, source := p.id, uri := uri } := by
  unfold getTimeline at h
  split at h
  · exact absurd h (by simp)
  next p hp =>
    split at h
    next sch hsch =>
      split at h
      · exact absurd h (by simp)
      · exact ⟨p, hp, (Option.some.inj h).symm⟩
    next ss hsch =>
      exact ⟨p, hp, (Option.some.inj h).symm⟩

/-- Every item produced by `stampSource` carries the stamped source. -/
theorem mem_stampSource {pid : String} {items : List TimelineItem}
    {item : TimelineItem} (h : item ∈ stampSource pid items) :
    item.source = some pid := by
  unfold stampSource at h
  rcases List.mem_map.mp h with ⟨a, _, ha⟩
  rw [← ha]

/-- A `file`-scheme URI used in concrete scenarios. -/
def fileUri : URI := { scheme := "file" }

/-- An `http`-scheme URI used in concrete scenarios. -/
def httpUri : URI := { scheme := "http" }

/-- A provider registered with the array scheme `['file']`. -/
def arraySchemeProvider : TimelineProvider :=
  { id := "prov", label := "p", scheme := .multiple ["file"],
    provide := fun _ _ => .resolved (some
      { source := "prov", paging := none,
        items := [{ handle := "h1", timestamp := 5, label := "h1" }] }) }

/-- A service holding only `arraySchemeProvider`. -/
def arraySchemeSvc : TimelineServiceState :=
  registerTimelineProvider {} arraySchemeProvider

/-- C3 counterexample: a provider whose scheme set is `{"file"}` — given
as the array `['file']`, one of the two forms `TimelineProvider.scheme`
admits — queried with an `http` URI is *not* filtered out:
`typeof provider.scheme === 'string'` fails for arrays, so the scheme
check is skipped, `getTimeline` invokes the provider and returns its
(source-stamped) page instead of "not applicable". -/
theorem getTimeline_array_scheme_counterexample :
    (getTimeline arraySchemeSvc "prov" httpUri {}).map (fun r => r.result) =
      some (.resolved (some
        { source := "prov", paging := none,
          items := [{ handle := "h1", timestamp := 5, label := "h1",
                      source := some "prov" }] })) := by
  decide

/-- C3 amended: `getTimeline` returns "not applicable" (undefined,
without the provider being invoked) exactly when the id is not
registered, or when the registered provider's scheme is a *single
string* that is neither the wildcard `'*'` nor the URI's scheme; a
provider whose scheme is an array is invoked regardless of the URI's
scheme, because the check is only performed for string schemes. -/
theorem getTimeline_not_applicable_iff (s : TimelineServiceState) (id : String)
    (uri : URI) (options : TimelineOptions) :
    getTimeline s id uri options = none ↔
      mapGet s.providers id = none ∨
      (∃ p sch, mapGet s.providers id = some p ∧ p.scheme = .single sch ∧
        sch ≠ "*" ∧ sch ≠ uri.scheme) := by
  constructor
  · intro h
    unfold getTimeline at h
    split at h
    · exact Or.inl (by assumption)
    next p hp =>
      split at h
      next sch hsch =>
        split at h
        next hc => exact Or.inr ⟨p, sch, hp, hsch, hc⟩
        · exact absurd h (by simp)
      next ss hsch => exact absurd h (by simp)
  · intro h
    unfold getTimeline
    rcases h with h | ⟨p, sch, hp, hsch, hc⟩
    · rw [h]
    · simp [hp, hsch, hc]


/-- Unfolding equation for `loadTimelineForSource` in terms of its stages. -/
theorem loadTimelineForSource_eq (svc : TimelineServiceState) (w : TreeWidgetState)
    (source : String) (uri : URI) (reset : Bool) :
    loadTimelineForSource svc w source uri reset =
      match getTimeline svc source uri (requestOptions (resetStep w source reset) source reset) with
      | none => (resetStep w source reset, .notApplicable)
      | some timelineRequest =>
        applyTimelineResult (resetStep w source reset) source
          (mapGet (resetStep w source reset).timelinesBySource source)
          timelineRequest.result := rfl

/-- The registry maps each key to a provider carrying that id — the shape
`registerTimelineProvider` maintains, since it always stores `p` under
`p.id`. -/
def svcWellFormed (s : TimelineServiceState) : Prop :=
  ∀ e ∈ s.providers, e.2.id = e.1

/-- Every item of every aggregate carries the id of the provider owning
the aggregate (the aggregate's key in `timelinesBySource`). -/
def aggregatesStamped (w : TreeWidgetState) : Prop :=
  ∀ e ∈ w.timelinesBySource, ∀ item ∈ e.2.items, item.source = some e.1

theorem register_preserves_wellFormed {s : TimelineServiceState}
    (hs : svcWellFormed s) (p : TimelineProvider) :
    svcWellFormed (registerTimelineProvider s p) := by
  intro e he
  unfold registerTimelineProvider at he
  simp only at he
  have hmem : e ∈ mapSet s.providers p.id p := by
    cases hx : mapGet s.providers p.id <;>
      cases hh : p.hasOnDidChange <;>
      simpa [hx, hh] using he
  rcases mem_mapSet hmem with h | h
  · rw [h]
  · exact hs e h

/-- C4: the Request Router stamps provenance. First conjunct: every item
of every `Timeline` page handed back through a `getTimeline` request has
`source` equal to the request's `source` (the producing provider's id),
whatever value the provider's raw response carried. Second conjunct: in
a well-formed registry, `loadTimelineForSource` preserves the invariant
that every item of every aggregate carries the id of the provider owning
that aggregate — hence every item in every aggregate is stamped. -/
theorem getTimeline_stamps_source :
    (∀ (s : TimelineServiceState) (id : String) (uri : URI)
       (options : TimelineOptions) (req : TimelineRequest) (t : Timeline),
       getTimeline s id uri options = some req →
       req.result = .resolved (some t) →
       ∀ item ∈ t.items, item.source = some req.source) ∧
    (∀ (svc : TimelineServiceState) (w : TreeWidgetState) (source : String)
       (uri : URI) (reset : Bool),
       svcWellFormed svc → aggregatesStamped w →
       aggregatesStamped (loadTimelineForSource svc w source uri reset).1) := by
  constructor
  · intro s id uri options req t hreq hres item hitem
    rcases getTimeline_some_inv hreq with ⟨p, hp, hreqeq⟩
    rw [hreqeq] at hres ⊢
    simp only at hres ⊢
    unfold routeResult at hres
    cases ho : p.provide uri options with
    | rejected e => rw [ho] at hres; simp at hres
    | resolved topt =>
      cases topt with
      | none => rw [ho] at hres; simp at hres
      | some t0 =>
        rw [ho] at hres
        simp only [FetchOutcome.resolved.injEq, Option.some.injEq] at hres
        rw [← hres] at hitem
        simp only at hitem
        exact mem_stampSource hitem
  · intro svc w source uri reset hwf hst
    have hst1 : aggregatesStamped (resetStep w source reset) := by
      unfold resetStep
      cases reset with
      | false => simpa using hst
      | true =>
        intro e he item hitem
        simp only [if_true] at he
        exact hst e (mem_mapDelete he) item hitem
    rw [loadTimelineForSource_eq]
    cases hreq : getTimeline svc source uri
        (requestOptions (resetStep w source reset) source reset) with
    | none => exact hst1
    | some timelineRequest =>
      rcases getTimeline_some_inv hreq with ⟨p, hp, hreqeq⟩
      have hpid : p.id = source := hwf _ (mapGet_eq_some_mem hp)
      show aggregatesStamped (applyTimelineResult (resetStep w source reset) source
        (mapGet (resetStep w source reset).timelinesBySource source)
        timelineRequest.result).1
      cases hres : timelineRequest.result with
      | rejected e =>
        simp only [applyTimelineResult]
        exact hst1
      | resolved topt =>
        cases topt with
        | none =>
          simp only [applyTimelineResult]
          exact hst1
        | some timelineResult =>
          have hti : ∀ item ∈ timelineResult.items, item.source = some source := by
            rw [hreqeq] at hres
            simp only at hres
            unfold routeResult at hres
            cases ho : p.provide uri
                (requestOptions (resetStep w source reset) source reset) with
            | rejected e => rw [ho] at hres; simp at hres
            | resolved t0opt =>
              cases t0opt with
              | none => rw [ho] at hres; simp at hres
              | some t0 =>
                rw [ho] at hres
                simp only [FetchOutcome.resolved.injEq, Option.some.injEq] at hres
                intro item hitem
                rw [← hres] at hitem
                simp only at hitem
                rw [← hpid]
                exact mem_stampSource hitem
          cases hagg : mapGet (resetStep w source reset).timelinesBySource source with
          | none =>
            simp only [applyTimelineResult, storeAndRender]
            intro e he item hitem
            rcases mem_mapSet he with hnew | hold
            · rw [hnew] at hitem ⊢
              simp only [TimelineAggregate.ofTimeline] at hitem
              exact hti item hitem
            · exact hst1 e hold item hitem
          | some agg =>
            simp only [applyTimelineResult, storeAndRender]
            intro e he item hitem
            rcases mem_mapSet he with hnew | hold
            · rw [hnew] at hitem
              simp only [TimelineAggregate.add] at hitem
              rcases List.mem_append.mp (mem_sortByTimestampDesc.mp hitem) with hm | hm
              · have hsrc : item.source = some source :=
                  hst1 (source, agg) (mapGet_eq_some_mem hagg) item hm
                rw [hnew]
                exact hsrc
              · rw [hnew]
                exact hti item hm
            · exact hst1 e hold item hitem

/-- A provider whose raw response sets `source` to a spoofed value. -/
def spoofingProvider : TimelineProvider :=
  { id := "prov", label := "p", scheme := .single "file",
    provide := fun _ _ => .resolved (some
      { source := "prov", paging := none,
        items := [{ handle := "h1", timestamp := 7, label := "h1",
                    source := some "spoof" }] }) }

/-- A service holding only `spoofingProvider`. -/
def spoofingSvc : TimelineServiceState := registerTimelineProvider {} spoofingProvider

/-- The stamped page `getTimeline` hands back for `spoofingProvider`. -/
def spoofedPage : Timeline :=
  { source := "prov", paging := none,
    items := [{ handle := "h1", timestamp := 7, label := "h1",
                source := some "prov" }] }

/-- The request `getTimeline` returns for `spoofingSvc`. -/
def spoofedReq : TimelineRequest :=
  { result := .resolved (some spoofedPage), options := {},
    source := "prov", uri := fileUri }

/-- C4 witness: the item the spoofing provider tagged `source := "spoof"`
comes back stamped with the provider id `"prov"`. -/
theorem getTimeline_stamps_source_witness :
    ({ handle := "h1", timestamp := 7, label := "h1",
       source := some "prov" } : TimelineItem).source = some spoofedReq.source :=
  getTimeline_stamps_source.1 spoofingSvc "prov" fileUri {} spoofedReq spoofedPage
    (by rfl) (by rfl)
    { handle := "h1", timestamp := 7, label := "h1", source := some "prov" }
    (by decide)

/-- C5: with `reset=true`, `loadTimelineForSource` discards the existing
aggregate before fetching (the `mapDelete` in the conclusion), the
options sent to the provider carry an undefined cursor (the fetch
hypothesis is at `cursor := none`, which is exactly the options value
the call builds when resetting), and on a successful page response the
stored aggregate holds exactly that page's (source-stamped) items and
that page's cursor, whatever the prior aggregate held. -/
theorem loadPage_reset_seeds_from_page (svc : TimelineServiceState)
    (w : TreeWidgetState) (source : String) (uri : URI) (p : TimelineProvider)
    (t : Timeline)
    (hp : mapGet svc.providers source = some p)
    (hs : schemeApplicable p uri = true)
    (hfetch : p.provide uri { cursor := none, limit := some (.count pageSize) } =
      .resolved (some t)) :
    (loadTimelineForSource svc w source uri true).1.timelinesBySource =
      mapSet (mapDelete w.timelinesBySource source) source
        { source := t.source, items := stampSource p.id t.items,
          cursor := pagingCursor t } := by
  rw [loadTimelineForSource_eq]
  have hopts : requestOptions (resetStep w source true) source true =
      { cursor := none, limit := some (.count pageSize) } := rfl
  rw [hopts, getTimeline_eq_of_applicable _ hp hs]
  show (applyTimelineResult (resetStep w source true) source
      (mapGet (resetStep w source true).timelinesBySource source)
      (routeResult p.id
        (p.provide uri { cursor := none, limit := some (.count pageSize) }))).1.timelinesBySource
    = _
  rw [hfetch]
  have hnone : mapGet (resetStep w source true).timelinesBySource source = none := by
    unfold resetStep
    simp only [if_true]
    exact mapGet_mapDelete_self _ _
  simp only [routeResult]
  rw [hnone]
  simp only [applyTimelineResult, storeAndRender, TimelineAggregate.ofTimeline]
  unfold resetStep
  simp only [if_true]
  unfold pagingCursor
  rfl

/-- An aggregate accumulated before a reset, used in concrete scenarios. -/
def c5PrevAgg : TimelineAggregate :=
  { source := "prov",
    items := [{ handle := "old", timestamp := 1, label := "old", source := some "prov" }],
    cursor := some "stale" }

/-- The page the reset-scenario provider serves for a cursor-less fetch. -/
def c5Page : Timeline :=
  { source := "prov", paging := some { cursor := some "c1" },
    items := [{ handle := "h1", timestamp := 300, label := "h1" }] }

/-- A provider that only answers cursor-less fetches (any fetch carrying
a cursor rejects), serving `c5Page`. -/
def c5Provider : TimelineProvider :=
  { id := "prov", label := "p", scheme := .single "file",
    provide := fun _ o =>
      if o.cursor = none then .resolved (some c5Page)
      else .rejected "unexpected cursor" }

/-- A service holding only `c5Provider`. -/
def c5Svc : TimelineServiceState := registerTimelineProvider {} c5Provider

/-- A widget state already holding a stale aggregate for `"prov"`. -/
def c5Widget : TreeWidgetState := { timelinesBySource := [("prov", c5PrevAgg)] }

/-- C5 witness: a reset load against `c5Widget` replaces the stale
aggregate with exactly `c5Page`'s stamped items and cursor. -/
theorem loadPage_reset_seeds_from_page_witness :
    (loadTimelineForSource c5Svc c5Widget "prov" fileUri true).1.timelinesBySource =
      mapSet (mapDelete c5Widget.timelinesBySource "prov") "prov"
        { source := c5Page.source, items := stampSource c5Provider.id c5Page.items,
          cursor := pagingCursor c5Page } :=
  loadPage_reset_seeds_from_page c5Svc c5Widget "prov" fileUri c5Provider c5Page
    (by rfl) (by rfl) (by rfl)

/-- A provider answering an empty page whose paging cursor is the
defined but JS-falsy empty string. -/
def c8EmptyCursorProvider : TimelineProvider :=
  { id := "prov", label := "p", scheme := .single "file",
    provide := fun _ _ => .resolved (some
      { source := "prov", paging := some { cursor := some "" }, items := [] }) }

/-- A service holding only `c8EmptyCursorProvider`. -/
def c8EmptyCursorSvc : TimelineServiceState :=
  registerTimelineProvider {} c8EmptyCursorProvider

/-- An aggregate with one item and a live cursor, for the C8 scenario. -/
def c8Agg : TimelineAggregate :=
  { source := "prov",
    items := [{ handle := "a", timestamp := 500, label := "a", source := some "prov" }],
    cursor := some "c1" }

/-- A widget state already holding `c8Agg` for `"prov"`. -/
def c8Widget : TreeWidgetState := { timelinesBySource := [("prov", c8Agg)] }

/-- C8 counterexample: after this completed `loadPage` the aggregate's
cursor is defined (`some ""`, supplied by the provider as
`paging: { cursor: "" }`), yet the has-more flag handed to
`model.renderTimeline` is `false`, because the source computes the flag
as `!!timeline.cursor` and `!!""` is `false` in JS — so "true exactly
when the cursor is defined" fails at this reachable input. -/
theorem has_more_empty_cursor_counterexample :
    mapGet (loadTimelineForSource c8EmptyCursorSvc c8Widget "prov" fileUri
        false).1.timelinesBySource "prov" =
      some { source := "prov", items := c8Agg.items, cursor := some "" } ∧
    (loadTimelineForSource c8EmptyCursorSvc c8Widget "prov" fileUri false).2 =
      .rendered c8Agg.items false := by
  decide

/-- C8 amended: whenever a completed `loadTimelineForSource` reaches
`model.renderTimeline`, the has-more flag it reports is the JS
truthiness of the stored aggregate's cursor after the latest page —
`true` exactly when the cursor is defined *and non-empty* — and the
reported items are that aggregate's items; this holds for every fetch,
including fetches that returned zero items (an empty `items` array
still takes the render path). -/
theorem rendered_has_more_truthy_cursor (svc : TimelineServiceState)
    (w : TreeWidgetState) (source : String) (uri : URI) (reset : Bool)
    (items : List TimelineItem) (hasMore : Bool)
    (h : (loadTimelineForSource svc w source uri reset).2 = .rendered items hasMore) :
    ∃ agg,
      mapGet (loadTimelineForSource svc w source uri reset).1.timelinesBySource source
        = some agg ∧ items = agg.items ∧ hasMore = cursorTruthy agg.cursor := by
  rw [loadTimelineForSource_eq] at h ⊢
  cases hreq : getTimeline svc source uri
      (requestOptions (resetStep w source reset) source reset) with
  | none =>
    rw [hreq] at h
    exact absurd h (by simp)
  | some req =>
    rw [hreq] at h
    have h' : (applyTimelineResult (resetStep w source reset) source
        (mapGet (resetStep w source reset).timelinesBySource source) req.result).2
        = .rendered items hasMore := h
    show ∃ agg,
      mapGet (applyTimelineResult (resetStep w source reset) source
        (mapGet (resetStep w source reset).timelinesBySource source)
        req.result).1.timelinesBySource source
        = some agg ∧ items = agg.items ∧ hasMore = cursorTruthy agg.cursor
    cases hres : req.result with
    | rejected e =>
      rw [hres] at h'
      exact absurd h' (by simp [applyTimelineResult])
    | resolved topt =>
      cases topt with
      | none =>
        rw [hres] at h'
        exact absurd h' (by simp [applyTimelineResult])
      | some timelineResult =>
        rw [hres] at h'
        cases hagg : mapGet (resetStep w source reset).timelinesBySource source with
        | none =>
          rw [hagg] at h'
          simp only [applyTimelineResult, storeAndRender,
            LoadOutcome.rendered.injEq] at h'
          refine ⟨TimelineAggregate.ofTimeline timelineResult, ?_, h'.1.symm, h'.2.symm⟩
          simp only [applyTimelineResult, storeAndRender]
          exact mapGet_mapSet_self _ _ _
        | some agg =>
          rw [hagg] at h'
          simp only [applyTimelineResult, storeAndRender,
            LoadOutcome.rendered.injEq] at h'
          refine ⟨{ agg.add timelineResult.items with
              cursor := pagingCursor timelineResult }, ?_, h'.1.symm, h'.2.symm⟩
          simp only [applyTimelineResult, storeAndRender]
          exact mapGet_mapSet_self _ _ _

theorem register_providers_eq (s : TimelineServiceState) (p : TimelineProvider) :
    (registerTimelineProvider s p).providers = mapSet s.providers p.id p := by
  unfold registerTimelineProvider
  cases hx : mapGet s.providers p.id <;> cases hh : p.hasOnDidChange <;> simp [hx, hh]

theorem register_events_eq (s : TimelineServiceState) (p : TimelineProvider) :
    (registerTimelineProvider s p).providersEvents =
      s.providersEvents ++ [{ added := some [p.id] }] := by
  unfold registerTimelineProvider
  cases hx : mapGet s.providers p.id <;> cases hh : p.hasOnDidChange <;> simp [hx, hh]

theorem register_disposedSubscriptions_eq (s : TimelineServiceState)
    (p : TimelineProvider) :
    (registerTimelineProvider s p).disposedSubscriptions = s.disposedSubscriptions := by
  unfold registerTimelineProvider
  cases hx : mapGet s.providers p.id <;> cases hh : p.hasOnDidChange <;> simp [hx, hh]

/-- C10: the revocation handle returned by `registerTimelineProvider` is
keyed only by the id and is unconditional. With `q` registered over `p`
(same id), the handle issued for `p`'s registration: the current
registration is `q`; revoking the stale handle deletes `q` and fires
`{removed:[id]}`; revoking twice fires two `{removed:[id]}` events. -/
theorem registration_handle_unconditional (s : TimelineServiceState)
    (p q : TimelineProvider) (hid : q.id = p.id) :
    mapGet (registerTimelineProvider (registerTimelineProvider s p) q).providers
        p.id = some q ∧
    mapGet (registrationHandleDispose
        (registerTimelineProvider (registerTimelineProvider s p) q)
        p.id).providers p.id = none ∧
    (registrationHandleDispose
        (registerTimelineProvider (registerTimelineProvider s p) q)
        p.id).providersEvents
      = (registerTimelineProvider (registerTimelineProvider s p) q).providersEvents
        ++ [{ removed := some [p.id] }] ∧
    (registrationHandleDispose (registrationHandleDispose
        (registerTimelineProvider (registerTimelineProvider s p) q) p.id)
        p.id).providersEvents
      = (registerTimelineProvider (registerTimelineProvider s p) q).providersEvents
        ++ [{ removed := some [p.id] }, { removed := some [p.id] }] := by
  refine ⟨?_, ?_, rfl, ?_⟩
  · rw [register_providers_eq, hid]
    exact mapGet_mapSet_self _ _ _
  · unfold registrationHandleDispose
    exact mapGet_mapDelete_self _ _
  · unfold registrationHandleDispose
    simp

/-- A provider registered first under id `"a"` in the C10 scenario. -/
def c10ProviderP : TimelineProvider :=
  { id := "a", label := "p", scheme := .single "file",
    provide := fun _ _ => .resolved none }

/-- The provider that replaces `c10ProviderP` under the same id. -/
def c10ProviderQ : TimelineProvider :=
  { id := "a", label := "q", scheme := .single "file",
    provide := fun _ _ => .resolved none }

/-- C10 witness: revoking the stale handle issued for `c10ProviderP`
removes the replacement registration `c10ProviderQ`. -/
theorem registration_handle_unconditional_witness :
    c10ProviderQ.id = c10ProviderP.id ∧
    mapGet (registrationHandleDispose
        (registerTimelineProvider (registerTimelineProvider {} c10ProviderP) c10ProviderQ)
        c10ProviderP.id).providers c10ProviderP.id = none :=
  ⟨rfl, (registration_handle_unconditional {} c10ProviderP c10ProviderQ rfl).2.1⟩

/-- The first provider registered under `"a"`, exposing `onDidChange`
(so registration subscribes, allocating token `0`). -/
def c6ProviderOld : TimelineProvider :=
  { id := "a", label := "old", scheme := .single "file", hasOnDidChange := true,
    provide := fun _ _ => .resolved none }

/-- The replacement provider registered under the same id `"a"`, also
exposing `onDidChange`. -/
def c6ProviderNew : TimelineProvider :=
  { id := "a", label := "new", scheme := .single "file", hasOnDidChange := true,
    provide := fun _ _ => .resolved none }

/-- State after registering `c6ProviderOld`. -/
def c6State1 : TimelineServiceState := registerTimelineProvider {} c6ProviderOld

/-- State after re-registering id `"a"` with `c6ProviderNew`. -/
def c6State2 : TimelineServiceState := registerTimelineProvider c6State1 c6ProviderNew

/-- C6 counterexample: re-registering id `"a"` does not remove the prior
provider's active change subscription. Token `0` is the subscription
created for `c6ProviderOld`; after the duplicate registration the map
entry has been overwritten, but `dispose()` was never called on the old
subscription (`disposedSubscriptions` stays empty), so it is still
active and events subscribed through it are still delivered. -/
theorem register_duplicate_counterexample :
    mapGet c6State1.providerSubscriptions "a" = some 0 ∧
    subscriptionActive c6State1 0 = true ∧
    subscriptionActive c6State2 0 = true ∧
    c6State2.disposedSubscriptions = [] := by
  decide

/-- C6 amended: registering a duplicate id invokes the previous
provider's own `dispose()` (whether it throws has no effect — the
registration always completes as below, which is the swallowed
`try/catch`), installs the new provider, fires exactly one
`{added:[id]}` event, and touches the old change subscription only by
overwriting its map entry (when the new provider exposes `onDidChange`)
or leaving it in place (when it does not) — the old subscription handle
itself is never disposed. -/
theorem register_duplicate_amended (s : TimelineServiceState)
    (p q : TimelineProvider) (hprev : mapGet s.providers q.id = some p) :
    (registerTimelineProvider s q).providerDisposeCalls
        = s.providerDisposeCalls ++ [q.id] ∧
    mapGet (registerTimelineProvider s q).providers q.id = some q ∧
    (registerTimelineProvider s q).providersEvents
        = s.providersEvents ++ [{ added := some [q.id] }] ∧
    (registerTimelineProvider s q).disposedSubscriptions = s.disposedSubscriptions ∧
    (q.hasOnDidChange = true →
      (registerTimelineProvider s q).providerSubscriptions
        = mapSet s.providerSubscriptions q.id s.nextSubscriptionToken) ∧
    (q.hasOnDidChange = false →
      (registerTimelineProvider s q).providerSubscriptions
        = s.providerSubscriptions) := by
  refine ⟨?_, ?_, register_events_eq s q, register_disposedSubscriptions_eq s q, ?_, ?_⟩
  · unfold registerTimelineProvider
    cases hh : q.hasOnDidChange <;> simp [hprev, hh]
  · rw [register_providers_eq]
    exact mapGet_mapSet_self _ _ _
  · intro hh
    unfold registerTimelineProvider
    cases hx : mapGet s.providers q.id <;> simp [hx, hh]
  · intro hh
    unfold registerTimelineProvider
    cases hx : mapGet s.providers q.id <;> simp [hx, hh]

/-- A first registration whose provider's own `dispose()` throws. -/
def c6ThrowingOld : TimelineProvider :=
  { id := "a", label := "old", scheme := .single "file", hasOnDidChange := true,
    disposeThrows := true, provide := fun _ _ => .resolved none }

/-- State after registering `c6ThrowingOld`. -/
def c6ThrowState : TimelineServiceState := registerTimelineProvider {} c6ThrowingOld

/-- C6 witness: re-registering over a provider whose `dispose()` throws
still completes and fires exactly one `{added:["a"]}` event. -/
theorem register_duplicate_amended_witness :
    (registerTimelineProvider c6ThrowState c6ProviderNew).providersEvents
      = c6ThrowState.providersEvents ++ [{ added := some ["a"] }] :=
  (register_duplicate_amended c6ThrowState c6ThrowingOld c6ProviderNew (by rfl)).2.2.1

/-- A provider with a change subscription, for the C7 scenario. -/
def c7Provider : TimelineProvider :=
  { id := "a", label := "p", scheme := .single "file", hasOnDidChange := true,
    provide := fun _ _ => .resolved none }

/-- State after registering `c7Provider` (subscription token `0`). -/
def c7State1 : TimelineServiceState := registerTimelineProvider {} c7Provider

/-- State after unregistering id `"a"` again. -/
def c7State2 : TimelineServiceState := unregisterTimelineProvider c7State1 "a"

/-- C7 counterexample: unregistration removes the subscription map entry
but never releases (disposes) the subscription handle: token `0` was
allocated at registration, the map entry is gone after `unregister`, yet
`disposedSubscriptions` is still empty and the subscription is still
active — it was released zero times, not exactly once. -/
theorem unregister_never_disposes_counterexample :
    mapGet c7State1.providerSubscriptions "a" = some 0 ∧
    mapGet c7State2.providerSubscriptions "a" = none ∧
    c7State2.disposedSubscriptions = [] ∧
    subscriptionActive c7State2 0 = true := by
  decide

/-- C7 amended: `unregister(id)` with a known id removes the provider and
the subscription map entry and fires one `{removed:[id]}` event; an
unknown id is a complete no-op; but no service operation — unregister,
register (replacement included), or revoking a registration handle —
ever disposes a subscription handle: the handle is dropped, never
released. -/
theorem unregister_amended (s : TimelineServiceState) (id : String) :
    (∀ p, mapGet s.providers id = some p →
      unregisterTimelineProvider s id =
        { s with providers := mapDelete s.providers id,
                 providerSubscriptions := mapDelete s.providerSubscriptions id,
                 providersEvents := s.providersEvents ++ [{ removed := some [id] }] }) ∧
    (mapGet s.providers id = none → unregisterTimelineProvider s id = s) ∧
    (unregisterTimelineProvider s id).disposedSubscriptions
        = s.disposedSubscriptions ∧
    (registrationHandleDispose s id).disposedSubscriptions
        = s.disposedSubscriptions ∧
    (∀ p, (registerTimelineProvider s p).disposedSubscriptions
        = s.disposedSubscriptions) := by
  refine ⟨?_, ?_, ?_, rfl, fun p => register_disposedSubscriptions_eq s p⟩
  · intro p hp
    unfold unregisterTimelineProvider
    rw [hp]
  · intro hp
    unfold unregisterTimelineProvider
    rw [hp]
  · unfold unregisterTimelineProvider
    cases hp : mapGet s.providers id <;> simp

/-- C7 witness: unregistering the concrete registered id `"a"` removes
the provider and subscription map entries and fires one removed event. -/
theorem unregister_amended_witness :
    unregisterTimelineProvider c7State1 "a" =
      { c7State1 with
        providers := mapDelete c7State1.providers "a",
        providerSubscriptions := mapDelete c7State1.providerSubscriptions "a",
        providersEvents := c7State1.providersEvents ++ [{ removed := some ["a"] }] } :=
  (unregister_amended c7State1 "a").1 c7Provider (by rfl)

/-- A provider answering with an empty page that carries a new non-empty
cursor. -/
def c8Provider : TimelineProvider :=
  { id := "prov", label := "p", scheme := .single "file",
    provide := fun _ _ => .resolved (some
      { source := "prov", paging := some { cursor := some "c2" }, items := [] }) }

/-- A service holding only `c8Provider`. -/
def c8Svc : TimelineServiceState := registerTimelineProvider {} c8Provider

/-- C8 witness: a fetch that returned zero items still renders, and the
has-more flag it reports (`true`) is the truthiness of the stored
aggregate's (non-empty) cursor. -/
theorem rendered_has_more_truthy_cursor_witness :
    ((loadTimelineForSource c8Svc c8Widget "prov" fileUri false).2 =
      .rendered c8Agg.items true) ∧
    ∃ agg,
      mapGet (loadTimelineForSource c8Svc c8Widget "prov" fileUri false).1.timelinesBySource
          "prov" = some agg ∧
        c8Agg.items = agg.items ∧ true = cursorTruthy agg.cursor :=
  ⟨by decide,
   rendered_has_more_truthy_cursor c8Svc c8Widget "prov" fileUri false c8Agg.items true
     (by decide)⟩

theorem loadTimeLine_fanout_aux (svc : TimelineServiceState) (uri : URI)
    (reset : Bool) (srcs : List String) :
    ∀ (w : TreeWidgetState) (acc : List (String × LoadOutcome)),
      ((srcs.foldl (fun acc' source =>
          let step := loadTimelineForSource svc acc'.1 source uri reset
          (step.1, acc'.2 ++ [(source, step.2)])) (w, acc)).2).map Prod.fst
        = acc.map Prod.fst ++ srcs := by
  induction srcs with
  | nil =>
    intro w acc
    simp
  | cons s rest ih =>
    intro w acc
    simp only [List.foldl_cons]
    rw [ih]
    simp

/-- C9 counterexample: a provider fetch that rejects does not always
leave the aggregate for that (provider, resource) pair unmodified: when
the `loadPage` was issued with `reset=true`, the reset step deletes the
accumulated history before the fetch, and the rejecting fetch then
leaves the store without the aggregate — the call rejects *and* the
previously accumulated `c9Agg` is gone. -/
def c9Provider : TimelineProvider :=
  { id := "prov", label := "p", scheme := .single "file",
    provide := fun _ _ => .rejected "boom" }

/-- A service holding only the rejecting `c9Provider`. -/
def c9Svc : TimelineServiceState := registerTimelineProvider {} c9Provider

/-- Previously accumulated history for `"prov"`. -/
def c9Agg : TimelineAggregate :=
  { source := "prov",
    items := [{ handle := "a", timestamp := 400, label := "a", source := some "prov" }],
    cursor := some "c1" }

/-- A widget state already holding `c9Agg`. -/
def c9Widget : TreeWidgetState := { timelinesBySource := [("prov", c9Agg)] }

/-- C9 counterexample theorem (see `c9Provider`): the rejecting fetch
with `reset=true` rejects with the provider's error, yet the aggregate
that existed before the call is no longer present afterwards. -/
theorem reject_after_reset_counterexample :
    mapGet c9Widget.timelinesBySource "prov" = some c9Agg ∧
    (loadTimelineForSource c9Svc c9Widget "prov" fileUri true).2 =
      .rejectedWith "boom" ∧
    mapGet (loadTimelineForSource c9Svc c9Widget "prov" fileUri true).1.timelinesBySource
      "prov" = none := by
  decide

/-- C9 amended: (1) a provider rejection reaches the requester through
`getTimeline` unmodified (no handler intercepts it); (2) a `loadPage`
whose awaited fetch rejected leaves the widget state exactly as the
reset step left it — untouched when `reset=false`, and with only the
reset's own deletion when `reset=true`: the failure itself mutates
nothing; (3) the fan-out of `loadTimeLine` is never aborted by a
failing provider: every registered source gets exactly one
`loadTimelineForSource` outcome, in registration order. -/
theorem provider_rejection_amended :
    (∀ (s : TimelineServiceState) (id : String) (uri : URI)
       (options : TimelineOptions) (p : TimelineProvider) (e : String)
       (req : TimelineRequest),
       mapGet s.providers id = some p →
       p.provide uri options = .rejected e →
       getTimeline s id uri options = some req →
       req.result = .rejected e) ∧
    (∀ (svc : TimelineServiceState) (w : TreeWidgetState) (source : String)
       (uri : URI) (reset : Bool) (e : String),
       (loadTimelineForSource svc w source uri reset).2 = .rejectedWith e →
       (loadTimelineForSource svc w source uri reset).1 = resetStep w source reset) ∧
    (∀ (svc : TimelineServiceState) (w : TreeWidgetState) (uri : URI) (reset : Bool),
       ((loadTimeLine svc w uri reset).2).map Prod.fst
           = (getSources svc).map (fun src => src.id) ∧
       ((loadTimeLine svc w uri reset).2).length = svc.providers.length) := by
  refine ⟨?_, ?_, ?_⟩
  · intro s id uri options p e req hp hrej hreq
    rcases getTimeline_some_inv hreq with ⟨p', hp', hreqeq⟩
    rw [hp] at hp'
    have hpp : p' = p := (Option.some.inj hp').symm
    rw [hreqeq]
    simp only
    rw [hpp, hrej]
    rfl
  · intro svc w source uri reset e h
    rw [loadTimelineForSource_eq] at h ⊢
    cases hreq : getTimeline svc source uri
        (requestOptions (resetStep w source reset) source reset) with
    | none => rfl
    | some req =>
      have h' : (applyTimelineResult (resetStep w source reset) source
          (mapGet (resetStep w source reset).timelinesBySource source) req.result).2
          = .rejectedWith e := by rw [hreq] at h; exact h
      show (applyTimelineResult (resetStep w source reset) source
          (mapGet (resetStep w source reset).timelinesBySource source) req.result).1
          = resetStep w source reset
      cases hres : req.result with
      | rejected e' => simp [applyTimelineResult]
      | resolved topt =>
        cases topt with
        | none => simp [applyTimelineResult]
        | some t =>
          rw [hres] at h'
          cases hagg : mapGet (resetStep w source reset).timelinesBySource source with
          | none =>
            rw [hagg] at h'
            exact absurd h' (by simp [applyTimelineResult, storeAndRender])
          | some agg =>
            rw [hagg] at h'
            exact absurd h' (by simp [applyTimelineResult, storeAndRender])
  · intro svc w uri reset
    have hmap : ((loadTimeLine svc w uri reset).2).map Prod.fst
        = (getSources svc).map (fun src => src.id) := by
      unfold loadTimeLine
      rw [loadTimeLine_fanout_aux]
      simp
    refine ⟨hmap, ?_⟩
    have hlen := congrArg List.length hmap
    simp only [List.length_map] at hlen
    rw [hlen]
    unfold getSources
    simp

/-- C9 witness: for the rejecting provider with `reset=false`, the
rejection is reported and the widget state is exactly what the (empty)
reset step left — the prior aggregate `c9Agg` is untouched. -/
theorem provider_rejection_amended_witness :
    ((loadTimelineForSource c9Svc c9Widget "prov" fileUri false).2 =
      .rejectedWith "boom") ∧
    (loadTimelineForSource c9Svc c9Widget "prov" fileUri false).1 =
      resetStep c9Widget "prov" false :=
  ⟨by decide,
   provider_rejection_amended.2.1 c9Svc c9Widget "prov" fileUri false "boom" (by decide)⟩

/-- A provider whose first page arrives in ascending-timestamp order. -/
def c1Provider : TimelineProvider :=
  { id := "prov", label := "p", scheme := .single "file",
    provide := fun _ _ => .resolved (some
      { source := "prov", paging := some { cursor := some "c1" },
        items := [{ handle := "h1", timestamp := 100, label := "h1" },
                  { handle := "h2", timestamp := 300, label := "h2" }] }) }

/-- A service holding only `c1Provider`. -/
def c1Svc : TimelineServiceState := registerTimelineProvider {} c1Provider

/-- C1 counterexample: a completed `loadPage` that seeds a new aggregate
does not sort: the `TimelineAggregate` constructor stores the page's
items as given, so after seeding from a page whose items arrive in
ascending-timestamp order, the aggregate's items sequence is *not*
sorted by timestamp descending at this observation point. -/
theorem seed_unsorted_counterexample :
    mapGet (loadTimelineForSource c1Svc {} "prov" fileUri true).1.timelinesBySource
        "prov" =
      some { source := "prov",
             items := [{ handle := "h1", timestamp := 100, label := "h1",
                         source := some "prov" },
                       { handle := "h2", timestamp := 300, label := "h2",
                         source := some "prov" }],
             cursor := some "c1" } ∧
    ¬ List.Sorted itemLe
        [{ handle := "h1", timestamp := 100, label := "h1", source := some "prov" },
         { handle := "h2", timestamp := 300, label := "h2", source := some "prov" }] := by
  constructor
  · decide
  · intro h
    have := List.rel_of_sorted_cons h
      { handle := "h2", timestamp := 300, label := "h2", source := some "prov" }
      (by simp)
    unfold itemLe at this
    simp at this

/-- C1 amended: the descending-timestamp invariant holds after every
`loadPage` that operates on an *existing* aggregate (without reset):
either the page was merged — `TimelineAggregate.add` pushes and fully
re-sorts, so the result is sorted — or nothing happened and the
aggregate is exactly the prior one. Only the seeding path stores a first
page unsorted (see the counterexample). -/
theorem loadPage_append_sorted (svc : TimelineServiceState) (w : TreeWidgetState)
    (source : String) (uri : URI) (agg : TimelineAggregate)
    (hagg : mapGet w.timelinesBySource source = some agg)
    (agg' : TimelineAggregate)
    (hagg' : mapGet (loadTimelineForSource svc w source uri false).1.timelinesBySource
        source = some agg') :
    agg'.items.Sorted itemLe ∨ agg' = agg := by
  rw [loadTimelineForSource_eq] at hagg'
  cases hreq : getTimeline svc source uri
      (requestOptions (resetStep w source false) source false) with
  | none =>
    rw [hreq] at hagg'
    have hw : mapGet w.timelinesBySource source = some agg' := hagg'
    right
    rw [hw] at hagg
    exact Option.some.inj hagg
  | some req =>
    rw [hreq] at hagg'
    have h' : mapGet (applyTimelineResult (resetStep w source false) source
        (mapGet (resetStep w source false).timelinesBySource source)
        req.result).1.timelinesBySource source = some agg' := hagg'
    have hrs : mapGet (resetStep w source false).timelinesBySource source = some agg := hagg
    rw [hrs] at h'
    cases hres : req.result with
    | rejected e =>
      rw [hres] at h'
      simp only [applyTimelineResult] at h'
      right
      have hw : mapGet w.timelinesBySource source = some agg' := h'
      rw [hw] at hagg
      exact Option.some.inj hagg
    | resolved topt =>
      cases topt with
      | none =>
        rw [hres] at h'
        simp only [applyTimelineResult] at h'
        right
        have hw : mapGet w.timelinesBySource source = some agg' := h'
        rw [hw] at hagg
        exact Option.some.inj hagg
      | some timelineResult =>
        rw [hres] at h'
        simp only [applyTimelineResult, storeAndRender] at h'
        rw [mapGet_mapSet_self] at h'
        left
        rw [← Option.some.inj h']
        simp only [TimelineAggregate.add]
        exact sorted_sortByTimestampDesc _

/-- An already-sorted aggregate about to receive a later page. -/
def c1AppendAgg : TimelineAggregate :=
  { source := "prov",
    items := [{ handle := "h2", timestamp := 300, label := "h2", source := some "prov" },
              { handle := "h1", timestamp := 100, label := "h1", source := some "prov" }],
    cursor := some "c1" }

/-- A provider serving the second page (one item at timestamp 250, no
further cursor). -/
def c1AppendProvider : TimelineProvider :=
  { id := "prov", label := "p", scheme := .single "file",
    provide := fun _ _ => .resolved (some
      { source := "prov", paging := none,
        items := [{ handle := "h3", timestamp := 250, label := "h3" }] }) }

/-- A service holding only `c1AppendProvider`. -/
def c1AppendSvc : TimelineServiceState := registerTimelineProvider {} c1AppendProvider

/-- A widget state already holding `c1AppendAgg`. -/
def c1AppendWidget : TreeWidgetState := { timelinesBySource := [("prov", c1AppendAgg)] }

/-- The aggregate after merging the second page: re-sorted to
`[t300, t250, t100]`, cursor gone (exhausted). -/
def c1AppendResultAgg : TimelineAggregate :=
  { source := "prov",
    items := [{ handle := "h2", timestamp := 300, label := "h2", source := some "prov" },
              { handle := "h3", timestamp := 250, label := "h3", source := some "prov" },
              { handle := "h1", timestamp := 100, label := "h1", source := some "prov" }],
    cursor := none }

/-- C1 witness: appending a later page to the existing aggregate yields
the merged, descending-sorted sequence (or an untouched aggregate). -/
theorem loadPage_append_sorted_witness :
    (mapGet c1AppendWidget.timelinesBySource "prov" = some c1AppendAgg) ∧
    (mapGet (loadTimelineForSource c1AppendSvc c1AppendWidget "prov" fileUri
        false).1.timelinesBySource "prov" = some c1AppendResultAgg) ∧
    (c1AppendResultAgg.items.Sorted itemLe ∨ c1AppendResultAgg = c1AppendAgg) :=
  ⟨by decide, by decide,
   loadPage_append_sorted c1AppendSvc c1AppendWidget "prov" fileUri c1AppendAgg
     (by decide) c1AppendResultAgg (by decide)⟩

/-- An existing aggregate whose items sit in ascending (unsorted) order
with a live cursor — the state a seeding `loadPage` can produce. -/
def c2ItemLow : TimelineItem :=
  { handle := "h1", timestamp := 100, label := "h1", source := some "prov" }

/-- The higher-timestamp item of the C2 aggregate. -/
def c2ItemHigh : TimelineItem :=
  { handle := "h2", timestamp := 300, label := "h2", source := some "prov" }

/-- The pre-existing aggregate of the C2 scenario. -/
def c2Agg : TimelineAggregate :=
  { source := "prov", items := [c2ItemLow, c2ItemHigh], cursor := some "c1" }

/-- A provider answering with a zero-item page carrying no `paging`
object at all (no explicitly returned cursor value). -/
def c2Provider : TimelineProvider :=
  { id := "prov", label := "p", scheme := .single "file",
    provide := fun _ _ => .resolved (some
      { source := "prov", paging := none, items := [] }) }

/-- A service holding only `c2Provider`. -/
def c2Svc : TimelineServiceState := registerTimelineProvider {} c2Provider

/-- A widget state already holding `c2Agg`. -/
def c2Widget : TreeWidgetState := { timelinesBySource := [("prov", c2Agg)] }

/-- C2 counterexample: a fetch returning zero items changes an existing
aggregate twice over: `timeline.add([])` re-sorts the stored items (the
sequence `[t100, t300]` becomes `[t300, t100]`), and the cursor is
overwritten by `timelineResult.paging?.cursor` even though the page
carried no `paging` object — the stored cursor `"c1"` is erased to
`undefined`. -/
theorem empty_page_mutates_counterexample :
    mapGet c2Widget.timelinesBySource "prov" = some c2Agg ∧
    mapGet (loadTimelineForSource c2Svc c2Widget "prov" fileUri
        false).1.timelinesBySource "prov" =
      some { source := "prov", items := [c2ItemHigh, c2ItemLow], cursor := none } ∧
    ([c2ItemHigh, c2ItemLow] ≠ c2Agg.items) ∧
    ((none : Option String) ≠ c2Agg.cursor) := by
  decide

/-- C2 amended: for an existing aggregate, a fetch that resolved with a
zero-item page stores `sortByTimestampDesc agg.items` (so the item
*sequence* is unchanged exactly when it was already sorted descending)
and always overwrites the cursor with the response's `paging?.cursor` —
`undefined` when the provider returned no paging object; only the
"not applicable", "no result" and rejected outcomes leave the aggregate
untouched. -/
theorem empty_page_amended (svc : TimelineServiceState) (w : TreeWidgetState)
    (source : String) (uri : URI) (agg : TimelineAggregate)
    (hagg : mapGet w.timelinesBySource source = some agg) :
    (∀ (req : TimelineRequest) (t : Timeline),
      getTimeline svc source uri
          { cursor := agg.cursor, limit := some (.count pageSize) } = some req →
      req.result = .resolved (some t) → t.items = [] →
      mapGet (loadTimelineForSource svc w source uri false).1.timelinesBySource source =
        some { source := agg.source, items := sortByTimestampDesc agg.items,
               cursor := pagingCursor t }) ∧
    (∀ (req : TimelineRequest) (t : Timeline),
      getTimeline svc source uri
          { cursor := agg.cursor, limit := some (.count pageSize) } = some req →
      req.result = .resolved (some t) → t.items = [] →
      agg.items.Sorted itemLe →
      mapGet (loadTimelineForSource svc w source uri false).1.timelinesBySource source =
        some { source := agg.source, items := agg.items, cursor := pagingCursor t }) ∧
    (getTimeline svc source uri
        { cursor := agg.cursor, limit := some (.count pageSize) } = none →
      (loadTimelineForSource svc w source uri false).1 = w) ∧
    (∀ (req : TimelineRequest),
      getTimeline svc source uri
          { cursor := agg.cursor, limit := some (.count pageSize) } = some req →
      req.result = .resolved none →
      (loadTimelineForSource svc w source uri false).1 = w) ∧
    (∀ (req : TimelineRequest) (e : String),
      getTimeline svc source uri
          { cursor := agg.cursor, limit := some (.count pageSize) } = some req →
      req.result = .rejected e →
      (loadTimelineForSource svc w source uri false).1 = w) := by
  have hopts : requestOptions (resetStep w source false) source false =
      { cursor := agg.cursor, limit := some (.count pageSize) } := by
    unfold requestOptions resetStep
    simp [hagg]
  have main : ∀ (req : TimelineRequest) (t : Timeline),
      getTimeline svc source uri
          { cursor := agg.cursor, limit := some (.count pageSize) } = some req →
      req.result = .resolved (some t) → t.items = [] →
      mapGet (loadTimelineForSource svc w source uri false).1.timelinesBySource source =
        some { source := agg.source, items := sortByTimestampDesc agg.items,
               cursor := pagingCursor t } := by
    intro req t hreq hres hti
    rw [loadTimelineForSource_eq, hopts, hreq]
    show mapGet (applyTimelineResult (resetStep w source false) source
        (mapGet (resetStep w source false).timelinesBySource source)
        req.result).1.timelinesBySource source = _
    have hrs : mapGet (resetStep w source false).timelinesBySource source = some agg :=
      hagg
    rw [hres, hrs]
    simp only [applyTimelineResult, storeAndRender]
    rw [mapGet_mapSet_self]
    simp only [TimelineAggregate.add, hti, List.append_nil]
  refine ⟨main, ?_, ?_, ?_, ?_⟩
  · intro req t hreq hres hti hsorted
    have h := main req t hreq hres hti
    rw [sortByTimestampDesc_of_sorted hsorted] at h
    exact h
  · intro hreq
    rw [loadTimelineForSource_eq, hopts, hreq]
    rfl
  · intro req hreq hres
    rw [loadTimelineForSource_eq, hopts, hreq]
    show (applyTimelineResult (resetStep w source false) source
        (mapGet (resetStep w source false).timelinesBySource source) req.result).1 = w
    rw [hres]
    rfl
  · intro req e hreq hres
    rw [loadTimelineForSource_eq, hopts, hreq]
    show (applyTimelineResult (resetStep w source false) source
        (mapGet (resetStep w source false).timelinesBySource source) req.result).1 = w
    rw [hres]
    rfl

/-- The empty page `c2Provider` serves. -/
def c2EmptyPage : Timeline := { source := "prov", paging := none, items := [] }

/-- The request `getTimeline` returns for the C2 scenario. -/
def c2Req : TimelineRequest :=
  { result := .resolved (some c2EmptyPage),
    options := { cursor := some "c1", limit := some (.count pageSize) },
    source := "prov", uri := fileUri }

/-- C2 witness: for the concrete zero-item page with no paging object,
the stored aggregate is the re-sorted prior items with the cursor
overwritten by the (absent) paging cursor. -/
theorem empty_page_amended_witness :
    mapGet (loadTimelineForSource c2Svc c2Widget "prov" fileUri
        false).1.timelinesBySource "prov" =
      some { source := c2Agg.source, items := sortByTimestampDesc c2Agg.items,
             cursor := pagingCursor c2EmptyPage } :=
  (empty_page_amended c2Svc c2Widget "prov" fileUri c2Agg (by decide)).1 c2Req
    c2EmptyPage (by decide) (by decide) (by decide)

/-- C3 witness: an unregistered id is "not applicable". -/
theorem getTimeline_not_applicable_iff_witness :
    getTimeline arraySchemeSvc "nope" fileUri {} = none :=
  (getTimeline_not_applicable_iff arraySchemeSvc "nope" fileUri {}).mpr
    (Or.inl (by rfl))
